import Mathlib

/-!
Shallow embedding of the chat_project_v2 repository (Django + Channels chat
service) for checking its natural-language specification.  The definitions
below are translated from the Python source files under apps/chat and
apps/moderation; stateful code is modelled by explicit passing of a Store
value, machine integers by Nat, datetimes by an abstract Time = Nat, and
Python exceptions by explicit outcome constructors.
-/

set_option linter.unusedVariables false
set_option maxRecDepth 8192
set_option autoImplicit false

namespace ChatSpec

abbrev UserId := Nat
abbrev RoomId := Nat
abbrev Time := Nat

/-- Model of Python JSON values as produced by json.loads. -/
inductive Json where
  | null
  | bool (b : Bool)
  | num (n : Int)
  | str (s : String)
  | arr (elems : List Json)
  | obj (fields : List (String × Json))

/-- Python truthiness of a JSON value: None, False, 0, empty string, empty
list and empty dict are falsy, everything else is truthy. -/
def Json.truthy : Json → Bool
  | .null => false
  | .bool b => b
  | .num n => decide (n ≠ 0)
  | .str s => decide (s ≠ "")
  | .arr xs => !xs.isEmpty
  | .obj fs => !fs.isEmpty

/-- Whether a JSON value is an object (a Python dict). -/
def Json.isObj : Json → Bool
  | .obj _ => true
  | _ => false

/-- Python dict.get on the field list of a JSON object: the value of the
first field with the given key, or none when the key is absent.  A field
present with value null yields some null, which dict.get cannot tell apart
from an absent key once a default is applied. -/
def pyDictGet (fs : List (String × Json)) (k : String) : Option Json :=
  (fs.find? (fun p => decide (p.1 = k))).map (fun p => p.2)

/-- str.strip: remove leading and trailing whitespace. -/
def stripStr (s : String) : String :=
  String.mk (((s.data.dropWhile Char.isWhitespace).reverse.dropWhile Char.isWhitespace).reverse)

/-- Python str.strip on a JSON value: succeeds with the stripped string
when the value is a string and raises AttributeError (modelled as error)
on any other value, exactly as value.strip() does in Python. -/
def pyStrip : Json → Except Unit String
  | .str s => Except.ok (stripStr s)
  | _ => Except.error ()

/-- Replace the first element satisfying p by its image under f, leaving
the rest of the list unchanged; models an UPDATE of a single row found by
a query, or mutating the object returned by queryset.first(). -/
def updFirst {α : Type _} (p : α → Bool) (f : α → α) : List α → List α
  | [] => []
  | x :: xs => if p x then f x :: xs else x :: updFirst p f xs

inductive RoomType where
  | pub
  | priv
deriving DecidableEq

inductive Role where
  | admin
  | moderator
  | member
deriving DecidableEq

inductive ActionType where
  | ban
  | unban
  | mute
  | unmute
  | kick
  | delete
  | warn
deriving DecidableEq

/-- django.contrib.auth User, restricted to the fields the code reads. -/
structure UserC where
  id : UserId
  username : String
  isStaff : Bool
  isSuperuser : Bool
deriving DecidableEq

/-- apps.chat.models.Room. -/
structure Room where
  id : RoomId
  slug : String
  name : String
  roomType : RoomType
  createdBy : UserId
deriving DecidableEq

/-- apps.chat.models.RoomMembership; unique per (user, room). -/
structure Membership where
  user : UserId
  room : RoomId
  role : Role
deriving DecidableEq

/-- apps.chat.models.Message. -/
structure Message where
  id : Nat
  room : RoomId
  sender : UserId
  content : String
  image : Option String
  parent : Option Nat
  isDeleted : Bool
  deletedBy : Option UserId
  deletedAt : Option Time
  createdAt : Time
deriving DecidableEq

/-- apps.moderation.models.ModerationAction. -/
structure ModAction where
  moderator : UserId
  targetUser : UserId
  actionType : ActionType
  reason : String
  room : Option RoomId
  duration : Option Nat
  expiresAt : Option Time
  isActive : Bool
  createdAt : Time
deriving DecidableEq

/-- apps.moderation.models.RoomMute; unique per (user, room). -/
structure RoomMute where
  user : UserId
  room : RoomId
  mutedBy : UserId
  reason : String
  expiresAt : Option Time
deriving DecidableEq

/-- apps.moderation.models.Warning. -/
structure WarningRec where
  user : UserId
  issuedBy : UserId
  room : Option RoomId
  reason : String
  acknowledged : Bool
deriving DecidableEq

/-- apps.authentication.models.UserProfile, restricted to the fields the
modelled code touches. -/
structure Profile where
  user : UserId
  isBanned : Bool
  banReason : String
  bannedUntil : Option Time
  onlineStatus : String
  lastSeen : Time
deriving DecidableEq

/-- apps.notifications.models.Notification, fields used by the commands. -/
structure NotifRec where
  recipient : UserId
  kind : String
  title : String
  body : String
  relatedRoom : Option RoomId
  relatedUser : Option UserId
deriving DecidableEq

/-- The persistent store: the Django database tables the modelled code
reads and writes.  nextMessageId models the Message autoincrement key. -/
structure Store where
  users : List UserC
  rooms : List Room
  memberships : List Membership
  messages : List Message
  modActions : List ModAction
  roomMutes : List RoomMute
  warnings : List WarningRec
  profiles : List Profile
  notifs : List NotifRec
  nextMessageId : Nat
deriving DecidableEq

/-- UserProfile.is_currently_banned (authentication/models.py): banned flag
set, and either no banned_until or banned_until still in the future. -/
def Profile.is_currently_banned (p : Profile) (now : Time) : Bool :=
  if !p.isBanned then false
  else
    match p.bannedUntil with
    | some t => decide (now < t)
    | none => true

def profileLookup (st : Store) (u : UserId) : Option Profile :=
  st.profiles.find? (fun p => decide (p.user = u))

/-- Whether the user has a profile that is currently globally banned. -/
def globallyBanned (st : Store) (now : Time) (u : UserId) : Bool :=
  match profileLookup st u with
  | some p => p.is_currently_banned now
  | none => false

/-- Predicate of the room-ban query in ChatConsumer.check_room_access:
active ban rows for this user and room whose expiry is absent or in the
future. -/
def banFilterB (now : Time) (u : UserId) (rid : RoomId) (a : ModAction) : Bool :=
  decide (a.targetUser = u) && decide (a.room = some rid) &&
    decide (a.actionType = ActionType.ban) && a.isActive &&
    (match a.expiresAt with
     | none => true
     | some e => decide (now < e))

/-- The is_banned existence check inside ChatConsumer.check_room_access. -/
def consumerRoomBanned (st : Store) (now : Time) (u : UserId) (rid : RoomId) : Bool :=
  st.modActions.any (banFilterB now u rid)

/-- ChatConsumer.check_room_access (chat/consumers.py): the room must
exist, the user must hold a membership row, and the user must not have an
active unexpired room ban. -/
def check_room_access (st : Store) (now : Time) (u : UserId) (slug : String) : Bool :=
  match st.rooms.find? (fun r => decide (r.slug = slug)) with
  | none => false
  | some room =>
    let isMember := st.memberships.any (fun m => decide (m.user = u) && decide (m.room = room.id))
    if !isMember then false
    else !(consumerRoomBanned st now u room.id)

/-- The join decision of ChatConsumer.connect: close when unauthenticated,
close when check_room_access denies, otherwise join the room group. -/
def connectJoins (st : Store) (now : Time) (authed : Bool) (u : UserId) (slug : String) : Bool :=
  authed && check_room_access st now u slug

/-- Predicate of the mute query in ChatConsumer.check_mute_status: mute
rows for this user and room whose expiry is absent or in the future. -/
def muteFilterB (now : Time) (u : UserId) (rid : RoomId) (m : RoomMute) : Bool :=
  decide (m.user = u) && decide (m.room = rid) &&
    (match m.expiresAt with
     | none => true
     | some e => decide (now < e))

/-- ChatConsumer.check_mute_status (chat/consumers.py): a pure read, the
store is not modified. -/
def check_mute_status (st : Store) (now : Time) (u : UserId) (rid : RoomId) : Bool :=
  st.roomMutes.any (muteFilterB now u rid)

/-- Key of a RoomMute row for a given user and room. -/
def muteKeyB (u : UserId) (rid : RoomId) (m : RoomMute) : Bool :=
  decide (m.user = u) && decide (m.room = rid)

/-- is_user_muted (chat/views.py): reads the mute row for (user, room),
deletes it and reports not muted when its expiry is strictly past, and
otherwise reports the stored state. -/
def is_user_muted (st : Store) (now : Time) (u : UserId) (rid : RoomId) : Bool × Store :=
  match st.roomMutes.find? (muteKeyB u rid) with
  | none => (false, st)
  | some m =>
    match m.expiresAt with
    | some e =>
      if decide (e < now) then
        (false, { st with roomMutes := st.roomMutes.eraseP (muteKeyB u rid) })
      else (true, st)
    | none => (true, st)

/-- Key of an active room-ban ModerationAction row for user and room. -/
def banKeyB (u : UserId) (rid : RoomId) (a : ModAction) : Bool :=
  decide (a.targetUser = u) && decide (a.room = some rid) &&
    decide (a.actionType = ActionType.ban) && a.isActive

/-- is_user_banned_from_room (chat/views.py): reads the first active ban
row for (user, room), flips is_active to false and reports not banned when
its expiry is strictly past, and otherwise reports the stored state. -/
def is_user_banned_from_room (st : Store) (now : Time) (u : UserId) (rid : RoomId) : Bool × Store :=
  match st.modActions.find? (banKeyB u rid) with
  | none => (false, st)
  | some b =>
    match b.expiresAt with
    | some e =>
      if decide (e < now) then
        (false, { st with modActions := updFirst (banKeyB u rid) (fun a => { a with isActive := false }) st.modActions })
      else (true, st)
    | none => (true, st)

/-- One joined chat connection: the fields of ChatConsumer set during
connect that the message path reads. -/
structure Session where
  userId : UserId
  username : String
  roomId : RoomId
  roomSlug : String
deriving DecidableEq

/-- Outbound effects of processing one inbound frame. -/
inductive Act where
  | sendError (msg : String)
  | broadcastChat (message : String) (username : String) (userId : UserId)
      (imageUrl : Json) (messageId : Json) (timestamp : Time)
  | broadcastTyping (username : String) (userId : UserId) (isTyping : Json)

/-- Result of ChatConsumer.receive on one frame: either the handler chain
raised an exception that the receive try block does not catch, which kills
the consumer and closes the connection, or it finished with a list of
outbound effects and an updated store. -/
inductive RecvOutcome where
  | crash
  | ok (acts : List Act) (st : Store)

/-- ensure a UserProfile row exists (UserProfile.objects.get_or_create). -/
def ensureProfile (st : Store) (u : UserId) : Store :=
  if st.profiles.any (fun p => decide (p.user = u)) then st
  else
    { st with
      profiles := st.profiles ++
        [{ user := u, isBanned := false, banReason := "", bannedUntil := none,
           onlineStatus := "offline", lastSeen := 0 }] }

/-- ChatConsumer.set_user_online: get_or_create the profile, then set its
online_status and last_seen fields. -/
def set_user_online (st : Store) (u : UserId) (isOnline : Bool) (now : Time) : Store :=
  let st1 := ensureProfile st u
  { st1 with
    profiles := updFirst (fun p => decide (p.user = u))
      (fun p => { p with onlineStatus := if isOnline then "online" else "offline", lastSeen := now })
      st1.profiles }

/-- ChatConsumer.save_message: create a Message row with the session room
and sender and the given content and return its id. -/
def save_message (st : Store) (rid : RoomId) (u : UserId) (content : String) (now : Time) : Nat × Store :=
  (st.nextMessageId,
   { st with
     messages := st.messages ++
       [{ id := st.nextMessageId, room := rid, sender := u, content := content,
          image := none, parent := none, isDeleted := false, deletedBy := none,
          deletedAt := none, createdAt := now }],
     nextMessageId := st.nextMessageId + 1 })

/-- ChatConsumer.handle_message: strip the message text (AttributeError on
non-string values escapes the receive handler and is modelled as crash),
reject with an error event when the sender is muted right now, silently
drop empty frames, persist text messages that carry no truthy message_id,
and broadcast to the room group. -/
def handle_message (sess : Session) (st : Store) (now : Time) (fs : List (String × Json)) : RecvOutcome :=
  match pyStrip ((pyDictGet fs "message").getD (Json.str "")) with
  | Except.error _ => RecvOutcome.crash
  | Except.ok message =>
    let imageUrl := (pyDictGet fs "image_url").getD Json.null
    let messageId := (pyDictGet fs "message_id").getD Json.null
    if check_mute_status st now sess.userId sess.roomId then
      RecvOutcome.ok [Act.sendError "You are muted in this room"] st
    else if decide (message = "") && !imageUrl.truthy then
      RecvOutcome.ok [] st
    else
      let saved :=
        if !messageId.truthy && decide (message ≠ "") then
          let idSt := save_message st sess.roomId sess.userId message now
          (Json.num (Int.ofNat idSt.1), idSt.2)
        else (messageId, st)
      RecvOutcome.ok
        [Act.broadcastChat message sess.username sess.userId imageUrl saved.1 now]
        saved.2

/-- ChatConsumer.handle_typing: broadcast the typing indicator. -/
def handle_typing (sess : Session) (st : Store) (fs : List (String × Json)) : RecvOutcome :=
  let isTyping := (pyDictGet fs "is_typing").getD (Json.bool false)
  RecvOutcome.ok [Act.broadcastTyping sess.username sess.userId isTyping] st

/-- ChatConsumer.receive: the whole handler chain runs inside a try block
whose only except clause catches json.JSONDecodeError.  Input none models
text that fails json.loads (caught, answered with an error event); input
some j models a successfully parsed JSON value, on which data.get raises
an uncaught AttributeError whenever j is not an object. -/
def receive (sess : Session) (st : Store) (now : Time) (input : Option Json) : RecvOutcome :=
  match input with
  | none => RecvOutcome.ok [Act.sendError "Invalid message format"] st
  | some (Json.obj fs) =>
    match (pyDictGet fs "type").getD (Json.str "message") with
    | Json.str s =>
      if s = "message" then handle_message sess st now fs
      else if s = "typing" then handle_typing sess st fs
      else if s = "heartbeat" then RecvOutcome.ok [] (set_user_online st sess.userId true now)
      else RecvOutcome.ok [] st
    | _ => RecvOutcome.ok [] st
  | some _ => RecvOutcome.crash

/-- The class level ChatConsumer.room_users table: room slug to the map
from connected user id to channel name. -/
def Registry := List (String × List (UserId × String))

def regRoom (reg : Registry) (slug : String) : Option (List (UserId × String)) :=
  (reg.find? (fun p => decide (p.1 = slug))).map (fun p => p.2)

def regLookup (reg : Registry) (slug : String) (u : UserId) : Option String :=
  (regRoom reg slug).bind (fun inner => (inner.find? (fun q => decide (q.1 = u))).map (fun q => q.2))

/-- The registry removal in ChatConsumer.disconnect: when the room slug is
a key of room_users and the user id is a key of the inner dict, delete the
user entry; otherwise do nothing. -/
def regUnregister (reg : Registry) (slug : String) (u : UserId) : Registry :=
  match regRoom reg slug with
  | none => reg
  | some inner =>
    if inner.any (fun q => decide (q.1 = u)) then
      updFirst (fun p => decide (p.1 = slug))
        (fun p => (p.1, p.2.filter (fun q => !decide (q.1 = u)))) reg
    else reg

/-- Frames a consumer event handler writes to its own client, and the
closing of the underlying connection. -/
inductive ClientAct where
  | forceDisconnectFrame (action : String) (reason : String)
  | closeConn
deriving DecidableEq

/-- ChatConsumer.force_disconnect: return without output when the event
carries a truthy user_id different from the session user, otherwise send
the force_disconnect frame to the client first and then close the
connection. -/
def force_disconnect_handler (sessUserId : UserId) (evUserId : Option UserId)
    (evAction evReason : Option String) : List ClientAct :=
  let proceed :=
    match evUserId with
    | some t => !(decide (t ≠ 0) && decide (t ≠ sessUserId))
    | none => true
  if proceed then
    [ClientAct.forceDisconnectFrame (evAction.getD "removed")
       (evReason.getD "You have been removed from this room."),
     ClientAct.closeConn]
  else []

/-- can_moderate_room (moderation/views.py): global staff, room creator,
or an admin or moderator membership role in the room. -/
def can_moderate_room (st : Store) (actor : UserC) (room : Room) : Bool :=
  if actor.isStaff || actor.isSuperuser then true
  else if decide (room.createdBy = actor.id) then true
  else
    match st.memberships.find? (fun m => decide (m.user = actor.id) && decide (m.room = room.id)) with
    | some m => decide (m.role = Role.admin) || decide (m.role = Role.moderator)
    | none => false

/-- Events the command processor publishes to the room group after a
store write. -/
inductive Event where
  | forceDisconnect (userId : UserId) (action : String) (reason : String)
  | memberRemoved (userId : UserId) (username : String)
  | muteStatus (userId : UserId) (isMuted : Bool) (expiresAt : Option Time)
  | warningReceived (userId : UserId) (reason : String) (issuedBy : String) (roomName : String)
  | messageDeleted (messageId : Nat)
deriving DecidableEq

/-- Result of one moderation view call: 404, permission denied, rejected
with an error message and a redirect (no store change), the GET form page
(no store change), or the committed store plus the published events. -/
inductive CmdResult where
  | notFound
  | forbidden
  | rejected
  | page
  | done (st : Store) (events : List Event)

/-- Whether the command committed a store write. -/
def CmdResult.mutated : CmdResult → Bool
  | .done _ _ => true
  | _ => false

/-- str.isdigit on the duration POST field. -/
def isDigits (s : String) : Bool :=
  !s.data.isEmpty && s.data.all Char.isDigit

/-- int() on a digit string. -/
def durVal (s : String) : Nat :=
  s.data.foldl (fun n c => n * 10 + (c.toNat - 48)) 0

/-- expires_at computation shared by ban_user and mute_user: now plus the
duration in minutes when the field is a digit string with positive value,
otherwise no expiry. -/
def postExpiry (now : Time) (d : Option String) : Option Time :=
  match d with
  | some s => if isDigits s && decide (0 < durVal s) then some (now + durVal s) else none
  | none => none

/-- the duration field stored on the ModerationAction row. -/
def postDurField (d : Option String) : Option Nat :=
  match d with
  | some s => if isDigits s then some (durVal s) else none
  | none => none

def addNotif (st : Store) (n : NotifRec) : Store :=
  { st with notifs := st.notifs ++ [n] }

def addAction (st : Store) (a : ModAction) : Store :=
  { st with modActions := st.modActions ++ [a] }

/-- profile-level global ban write in ban_user: get_or_create the profile
and set is_banned, ban_reason and banned_until. -/
def setProfileBan (st : Store) (u : UserId) (reason : String) (untl : Option Time) : Store :=
  let st1 := ensureProfile st u
  { st1 with
    profiles := updFirst (fun p => decide (p.user = u))
      (fun p => { p with isBanned := true, banReason := reason, bannedUntil := untl })
      st1.profiles }

/-- POST body of the ban form. -/
structure BanPost where
  reason : String
  duration : Option String
  isGlobal : Bool

/-- ban_user (moderation/views.py): permission check, then the self,
owner and staff-target rejections, then on POST either the profile-level
global ban or the room ban that also deletes the Membership row, always
appending an active ModerationAction, a Notification, and, when a room is
given, publishing force_disconnect and member_removed to the room. -/
def ban_user (st : Store) (now : Time) (actor : UserC) (targetId : UserId)
    (roomId : Option RoomId) (post : Option BanPost) : CmdResult :=
  match st.users.find? (fun x => decide (x.id = targetId)) with
  | none => CmdResult.notFound
  | some target =>
    let roomRes : Option (Option Room) :=
      match roomId with
      | some rid =>
        match st.rooms.find? (fun r => decide (r.id = rid)) with
        | none => none
        | some room => some (some room)
      | none => some none
    match roomRes with
    | none => CmdResult.notFound
    | some room =>
      let permOk :=
        match room with
        | some r => can_moderate_room st actor r
        | none => actor.isStaff || actor.isSuperuser
      if !permOk then CmdResult.forbidden
      else if decide (target.id = actor.id) then CmdResult.rejected
      else if (match room with
               | some r => decide (target.id = r.createdBy)
               | none => false) then CmdResult.rejected
      else if target.isStaff && !actor.isSuperuser then CmdResult.rejected
      else
        match post with
        | none => CmdResult.page
        | some p =>
          let expires := postExpiry now p.duration
          let globalBranch := p.isGlobal && (actor.isStaff || actor.isSuperuser)
          let stAndRoom :=
            if globalBranch then
              (setProfileBan st target.id p.reason expires, (none : Option RoomId))
            else
              (match room with
               | some r =>
                 ({ st with
                    memberships := st.memberships.filter
                      (fun m => !(decide (m.user = target.id) && decide (m.room = r.id))) }, some r.id)
               | none => (st, none))
          let st2 := addAction stAndRoom.1
            { moderator := actor.id, targetUser := target.id, actionType := ActionType.ban,
              reason := p.reason, room := stAndRoom.2, duration := postDurField p.duration,
              expiresAt := expires, isActive := true, createdAt := now }
          let st3 := addNotif st2
            { recipient := target.id, kind := "moderation", title := "You have been banned",
              body := p.reason, relatedRoom := stAndRoom.2, relatedUser := some actor.id }
          let events :=
            match room with
            | some r =>
              [Event.forceDisconnect target.id "ban"
                 ("You have been banned from " ++ r.name ++ ". Reason: " ++ p.reason),
               Event.memberRemoved target.id target.username]
            | none => []
          CmdResult.done st3 events

/-- POST body of the mute form. -/
structure MutePost where
  reason : String
  duration : Option String

/-- mute_user (moderation/views.py): permission, self and owner checks,
then on POST upsert of the RoomMute row keyed by (user, room), an audit
ModerationAction, a Notification, and the mute_status event. -/
def mute_user (st : Store) (now : Time) (actor : UserC) (targetId : UserId)
    (rid : RoomId) (post : Option MutePost) : CmdResult :=
  match st.users.find? (fun x => decide (x.id = targetId)) with
  | none => CmdResult.notFound
  | some target =>
    match st.rooms.find? (fun r => decide (r.id = rid)) with
    | none => CmdResult.notFound
    | some room =>
      if !can_moderate_room st actor room then CmdResult.forbidden
      else if decide (target.id = actor.id) then CmdResult.rejected
      else if decide (target.id = room.createdBy) then CmdResult.rejected
      else
        match post with
        | none => CmdResult.page
        | some p =>
          let expires := postExpiry now p.duration
          let st1 :=
            if st.roomMutes.any (muteKeyB target.id room.id) then
              { st with
                roomMutes := updFirst (muteKeyB target.id room.id)
                  (fun m => { m with mutedBy := actor.id, reason := p.reason, expiresAt := expires })
                  st.roomMutes }
            else
              { st with
                roomMutes := st.roomMutes ++
                  [{ user := target.id, room := room.id, mutedBy := actor.id,
                     reason := p.reason, expiresAt := expires }] }
          let st2 := addAction st1
            { moderator := actor.id, targetUser := target.id, actionType := ActionType.mute,
              reason := p.reason, room := some room.id, duration := postDurField p.duration,
              expiresAt := expires, isActive := true, createdAt := now }
          let st3 := addNotif st2
            { recipient := target.id, kind := "moderation", title := "You have been muted",
              body := p.reason, relatedRoom := some room.id, relatedUser := some actor.id }
          CmdResult.done st3 [Event.muteStatus target.id true expires]

/-- kick_user (moderation/views.py): permission, self and owner checks,
then on POST deletion of the Membership row and of any RoomMute rows, an
audit ModerationAction, a Notification, and the force_disconnect and
member_removed events. -/
def kick_user (st : Store) (now : Time) (actor : UserC) (targetId : UserId)
    (rid : RoomId) (post : Option String) : CmdResult :=
  match st.users.find? (fun x => decide (x.id = targetId)) with
  | none => CmdResult.notFound
  | some target =>
    match st.rooms.find? (fun r => decide (r.id = rid)) with
    | none => CmdResult.notFound
    | some room =>
      if !can_moderate_room st actor room then CmdResult.forbidden
      else if decide (target.id = actor.id) then CmdResult.rejected
      else if decide (target.id = room.createdBy) then CmdResult.rejected
      else
        match post with
        | none => CmdResult.page
        | some reason =>
          let st1 :=
            { st with
              memberships := st.memberships.filter
                (fun m => !(decide (m.user = target.id) && decide (m.room = room.id))),
              roomMutes := st.roomMutes.filter (fun m => !(muteKeyB target.id room.id m)) }
          let st2 := addAction st1
            { moderator := actor.id, targetUser := target.id, actionType := ActionType.kick,
              reason := reason, room := some room.id, duration := none,
              expiresAt := none, isActive := true, createdAt := now }
          let st3 := addNotif st2
            { recipient := target.id, kind := "moderation", title := "You have been kicked",
              body := reason, relatedRoom := some room.id, relatedUser := some actor.id }
          CmdResult.done st3
            [Event.forceDisconnect target.id "kick"
               ("You have been kicked from " ++ room.name ++ ". Reason: " ++ reason),
             Event.memberRemoved target.id target.username]

/-- warn_user (moderation/views.py): permission check only; the code has
no self-target or owner-target rejection.  On POST it creates the Warning
row, the audit ModerationAction, a Notification, and, when a room is
given, publishes the warning event. -/
def warn_user (st : Store) (now : Time) (actor : UserC) (targetId : UserId)
    (roomId : Option RoomId) (post : Option String) : CmdResult :=
  match st.users.find? (fun x => decide (x.id = targetId)) with
  | none => CmdResult.notFound
  | some target =>
    let roomRes : Option (Option Room) :=
      match roomId with
      | some rid =>
        match st.rooms.find? (fun r => decide (r.id = rid)) with
        | none => none
        | some room => some (some room)
      | none => some none
    match roomRes with
    | none => CmdResult.notFound
    | some room =>
      let permOk :=
        match room with
        | some r => can_moderate_room st actor r
        | none => actor.isStaff || actor.isSuperuser
      if !permOk then CmdResult.forbidden
      else
        match post with
        | none => CmdResult.page
        | some reason =>
          let st1 :=
            { st with
              warnings := st.warnings ++
                [{ user := target.id, issuedBy := actor.id, room := room.map Room.id,
                   reason := reason, acknowledged := false }] }
          let st2 := addAction st1
            { moderator := actor.id, targetUser := target.id, actionType := ActionType.warn,
              reason := reason, room := room.map Room.id, duration := none,
              expiresAt := none, isActive := true, createdAt := now }
          let st3 := addNotif st2
            { recipient := target.id, kind := "warning", title := "You have received a warning",
              body := reason, relatedRoom := room.map Room.id, relatedUser := some actor.id }
          let events :=
            match room with
            | some r => [Event.warningReceived target.id reason actor.username r.name]
            | none => []
          CmdResult.done st3 events

/-- delete_message (moderation/views.py): permission check against the
room of the message, then on POST the soft delete of the Message row
(is_deleted, deleted_by, deleted_at set in place), an audit
ModerationAction, and the message_deleted event.  The row itself stays. -/
def delete_message (st : Store) (now : Time) (actor : UserC) (messageId : Nat)
    (post : Bool) : CmdResult :=
  match st.messages.find? (fun m => decide (m.id = messageId)) with
  | none => CmdResult.notFound
  | some msg =>
    match st.rooms.find? (fun r => decide (r.id = msg.room)) with
    | none => CmdResult.notFound
    | some room =>
      if !can_moderate_room st actor room then CmdResult.forbidden
      else if !post then CmdResult.page
      else
        let st1 :=
          { st with
            messages := updFirst (fun m => decide (m.id = messageId))
              (fun m => { m with isDeleted := true, deletedBy := some actor.id, deletedAt := some now })
              st.messages }
        let st2 := addAction st1
          { moderator := actor.id, targetUser := msg.sender, actionType := ActionType.delete,
            reason := if msg.content ≠ "" then "Message deleted: \"" ++ String.mk (msg.content.data.take 50) ++ "...\"" else "Image message deleted",
            room := some msg.room, duration := none, expiresAt := none,
            isActive := true, createdAt := now }
        CmdResult.done st2 [Event.messageDeleted msg.id]

/-! Concrete stores, sessions and frames used by the counterexample and
witness theorems below. -/

def emptyStore : Store :=
  { users := [], rooms := [], memberships := [], messages := [], modActions := [],
    roomMutes := [], warnings := [], profiles := [], notifs := [], nextMessageId := 1 }

def roomR : Room :=
  { id := 10, slug := "r", name := "General", roomType := RoomType.pub, createdBy := 2 }

def sessAlice : Session :=
  { userId := 1, username := "alice", roomId := 10, roomSlug := "r" }

/-- Store for the C1 counterexample: user 1 is a member of room r and has
a currently banned profile; there are no ModerationAction rows. -/
def c1st : Store :=
  { emptyStore with
    rooms := [roomR],
    memberships := [{ user := 1, room := 10, role := Role.member }],
    profiles := [{ user := 1, isBanned := true, banReason := "abuse", bannedUntil := none,
                   onlineStatus := "offline", lastSeen := 0 }] }

/-- Store for the C1 counterexample, second part: a public room with no
membership row for user 3 and no moderation state at all. -/
def c1stB : Store :=
  { emptyStore with
    rooms := [{ id := 20, slug := "pub", name := "Open", roomType := RoomType.pub, createdBy := 2 }] }

/-- A mute of user 1 in room 10 whose expiry, 5, is strictly in the past
at time 10. -/
def c2mute : RoomMute :=
  { user := 1, room := 10, mutedBy := 2, reason := "spam", expiresAt := some 5 }

def c2st : Store :=
  { emptyStore with rooms := [roomR], roomMutes := [c2mute] }

def c2fs : List (String × Json) :=
  [("type", Json.str "message"), ("message", Json.str "hi")]

/-- The store after user 1 sends "hi" in room 10 at time 10 against c2st:
the message row is created and the stale mute row is still there. -/
def c2stAfter : Store :=
  { c2st with
    messages := [{ id := 1, room := 10, sender := 1, content := "hi", image := none,
                   parent := none, isDeleted := false, deletedBy := none, deletedAt := none,
                   createdAt := 10 }],
    nextMessageId := 2 }

/-- An expired room ban of user 1 in room 10 (expiry 5, checked at 10). -/
def c2ban : ModAction :=
  { moderator := 2, targetUser := 1, actionType := ActionType.ban, reason := "abuse",
    room := some 10, duration := some 5, expiresAt := some 5, isActive := true, createdAt := 0 }

/-- Witness store for the amended C2: both an expired mute and an expired
room ban of user 1 in room 10. -/
def c2wst : Store :=
  { emptyStore with rooms := [roomR], roomMutes := [c2mute], modActions := [c2ban] }

/-- Store for the C3 witness: user 1 holds a permanent mute in room 10. -/
def c3st : Store :=
  { emptyStore with
    rooms := [roomR],
    roomMutes := [{ user := 1, room := 10, mutedBy := 2, reason := "spam", expiresAt := none }] }

def c3fs : List (String × Json) :=
  [("type", Json.str "message"), ("message", Json.str "hello")]

def c4actor : UserC :=
  { id := 1, username := "mod", isStaff := true, isSuperuser := false }

/-- Store for the C4 counterexample: the acting staff moderator is also
the lookup target of the warn command. -/
def c4st : Store :=
  { emptyStore with users := [c4actor], rooms := [roomR] }

/-- The store warn_user commits when the staff actor warns themself in
room 10 with reason "spam": the Warning, audit and Notification rows all
get created even though the target is the actor. -/
def c4stAfter : Store :=
  { c4st with
    warnings := [{ user := 1, issuedBy := 1, room := some 10, reason := "spam",
                   acknowledged := false }],
    modActions := [{ moderator := 1, targetUser := 1, actionType := ActionType.warn,
                     reason := "spam", room := some 10, duration := none, expiresAt := none,
                     isActive := true, createdAt := 0 }],
    notifs := [{ recipient := 1, kind := "warning", title := "You have received a warning",
                 body := "spam", relatedRoom := some 10, relatedUser := some 1 }] }

def c7actor : UserC :=
  { id := 9, username := "adm", isStaff := true, isSuperuser := true }

def c7target : UserC :=
  { id := 1, username := "bob", isStaff := false, isSuperuser := false }

def c7room : Room :=
  { id := 10, slug := "g", name := "General", roomType := RoomType.pub, createdBy := 9 }

def c7st : Store :=
  { emptyStore with
    users := [c7target],
    rooms := [c7room],
    memberships := [{ user := 1, room := 10, role := Role.member }] }

def c9msg : Message :=
  { id := 5, room := 10, sender := 1, content := "hey", image := none, parent := none,
    isDeleted := false, deletedBy := none, deletedAt := none, createdAt := 3 }

def c9st : Store :=
  { emptyStore with users := [c7target], rooms := [c7room], messages := [c9msg] }

def c10fs : List (String × Json) :=
  [("type", Json.str "message"), ("message", Json.str "hi"), ("message_id", Json.null)]

def c10st : Store :=
  { emptyStore with rooms := [roomR] }

def c10stAfter : Store :=
  { c10st with
    messages := [{ id := 1, room := 10, sender := 1, content := "hi", image := none,
                   parent := none, isDeleted := false, deletedBy := none, deletedAt := none,
                   createdAt := 7 }],
    nextMessageId := 2 }

def c6reg : Registry := [("r", [(1, "chan1"), (2, "chan2")])]

def c4owner : UserC :=
  { id := 2, username := "own", isStaff := false, isSuperuser := false }

def c4room : Room :=
  { id := 10, slug := "g", name := "General", roomType := RoomType.pub, createdBy := 2 }

/-- Witness store for the amended C4: the staff actor (id 1) and the room
owner (id 2) are both present as lookup targets. -/
def c4wst : Store :=
  { emptyStore with users := [c4actor, c4owner], rooms := [c4room] }

def c10wfs1 : List (String × Json) :=
  [("type", Json.str "message"), ("message", Json.str " hello ")]

def c10wfs2 : List (String × Json) :=
  [("type", Json.str "message"), ("message", Json.str "x"), ("message_id", Json.num 42)]

def c10wstAfter : Store :=
  { c10st with
    messages := [{ id := 1, room := 10, sender := 1, content := "hello", image := none,
                   parent := none, isDeleted := false, deletedBy := none, deletedAt := none,
                   createdAt := 7 }],
    nextMessageId := 2 }

/-- The store delete_message commits on the C9 witness input. -/
def c9stDel : Store :=
  { c9st with
    messages := [{ c9msg with isDeleted := true, deletedBy := some 9, deletedAt := some 4 }],
    modActions := [{ moderator := 9, targetUser := 1, actionType := ActionType.delete,
                     reason := "Message deleted: \"hey...\"", room := some 10, duration := none,
                     expiresAt := none, isActive := true, createdAt := 4 }] }

def c7postRoom : BanPost := { reason := "bad", duration := none, isGlobal := false }

def c7postGlob : BanPost := { reason := "bad", duration := none, isGlobal := true }

/-- The store the room-scoped ban of user 1 commits on c7st. -/
def c7stRoomBan : Store :=
  { c7st with
    memberships := [],
    modActions := [{ moderator := 9, targetUser := 1, actionType := ActionType.ban,
                     reason := "bad", room := some 10, duration := none, expiresAt := none,
                     isActive := true, createdAt := 3 }],
    notifs := [{ recipient := 1, kind := "moderation", title := "You have been banned",
                 body := "bad", relatedRoom := some 10, relatedUser := some 9 }] }

def c7evsRoom : List Event :=
  [Event.forceDisconnect 1 "ban" "You have been banned from General. Reason: bad",
   Event.memberRemoved 1 "bob"]

def c7profAfter : Profile :=
  { user := 1, isBanned := true, banReason := "bad", bannedUntil := none,
    onlineStatus := "offline", lastSeen := 0 }

/-- The store the global ban of user 1 commits on c7st. -/
def c7stGlobBan : Store :=
  { c7st with
    profiles := [c7profAfter],
    modActions := [{ moderator := 9, targetUser := 1, actionType := ActionType.ban,
                     reason := "bad", room := none, duration := none, expiresAt := none,
                     isActive := true, createdAt := 3 }],
    notifs := [{ recipient := 1, kind := "moderation", title := "You have been banned",
                 body := "bad", relatedRoom := none, relatedUser := some 9 }] }

/-! Helper lemmas. -/


theorem length_updFirst {α : Type _} (p : α → Bool) (f : α → α) (l : List α) :
    (updFirst p f l).length = l.length := by
  induction l with
  | nil => rfl
  | cons x xs ih =>
    unfold updFirst
    split <;> simp [ih]

theorem find?_updFirst {α : Type _} (p : α → Bool) (f : α → α) (l : List α)
    (hf : ∀ a, p a = true → p (f a) = true) :
    (updFirst p f l).find? p = (l.find? p).map f := by
  induction l with
  | nil => rfl
  | cons x xs ih =>
    unfold updFirst
    by_cases hx : p x = true
    · rw [if_pos hx, List.find?_cons_of_pos _ (hf x hx), List.find?_cons_of_pos _ hx]
      rfl
    · rw [if_neg hx, List.find?_cons_of_neg _ (by simpa using hx),
        List.find?_cons_of_neg _ (by simpa using hx), ih]

theorem mem_updFirst_of_neg {α : Type _} {p : α → Bool} {f : α → α} {l : List α} {y : α}
    (hy : y ∈ l) (hpy : p y = false) : y ∈ updFirst p f l := by
  induction l with
  | nil => cases hy
  | cons x xs ih =>
    unfold updFirst
    rcases List.mem_cons.mp hy with h | h
    · subst h
      rw [if_neg (by simp [hpy])]
      exact List.mem_cons_self _ _
    · split
      · exact List.mem_cons_of_mem _ h
      · exact List.mem_cons_of_mem _ (ih h)

theorem mem_updFirst_of_find? {α : Type _} {p : α → Bool} {f : α → α} {l : List α} {x : α}
    (h : l.find? p = some x) : f x ∈ updFirst p f l := by
  induction l with
  | nil => cases h
  | cons y ys ih =>
    unfold updFirst
    by_cases hy : p y = true
    · rw [List.find?_cons_of_pos _ hy] at h
      rw [if_pos hy, Option.some_inj.mp h]
      exact List.mem_cons_self _ _
    · rw [List.find?_cons_of_neg _ (by simpa using hy)] at h
      rw [if_neg hy]
      exact List.mem_cons_of_mem _ (ih h)

theorem any_filter_not {α : Type _} (l : List α) (k : α → Bool) :
    (l.filter (fun a => !k a)).any k = false := by
  by_contra h
  rw [Bool.not_eq_false, List.any_eq_true] at h
  obtain ⟨x, hx, hkx⟩ := h
  rw [List.mem_filter] at hx
  simp [hkx] at hx

theorem banFilterB_iff (now : Time) (u : UserId) (rid : RoomId) (a : ModAction) :
    banFilterB now u rid a = true ↔
      (a.targetUser = u ∧ a.room = some rid ∧ a.actionType = ActionType.ban ∧ a.isActive = true ∧
        (a.expiresAt = none ∨ ∃ e, a.expiresAt = some e ∧ now < e)) := by
  unfold banFilterB
  cases he : a.expiresAt <;> simp [he, Bool.and_eq_true, decide_eq_true_eq, and_assoc]

theorem muteFilterB_iff (now : Time) (u : UserId) (rid : RoomId) (m : RoomMute) :
    muteFilterB now u rid m = true ↔
      (m.user = u ∧ m.room = rid ∧ (m.expiresAt = none ∨ ∃ e, m.expiresAt = some e ∧ now < e)) := by
  unfold muteFilterB
  cases he : m.expiresAt <;> simp [he, Bool.and_eq_true, decide_eq_true_eq, and_assoc]

theorem memberAny_iff (st : Store) (u : UserId) (rid : RoomId) :
    st.memberships.any (fun m => decide (m.user = u) && decide (m.room = rid)) = true ↔
      ∃ m ∈ st.memberships, m.user = u ∧ m.room = rid := by
  simp [List.any_eq_true, Bool.and_eq_true, decide_eq_true_eq]

theorem consumerRoomBanned_iff (st : Store) (now : Time) (u : UserId) (rid : RoomId) :
    consumerRoomBanned st now u rid = true ↔
      ∃ a ∈ st.modActions, a.targetUser = u ∧ a.room = some rid ∧
        a.actionType = ActionType.ban ∧ a.isActive = true ∧
        (a.expiresAt = none ∨ ∃ e, a.expiresAt = some e ∧ now < e) := by
  unfold consumerRoomBanned
  rw [List.any_eq_true]
  constructor
  · rintro ⟨a, ha, hfa⟩
    exact ⟨a, ha, (banFilterB_iff now u rid a).mp hfa⟩
  · rintro ⟨a, ha, hfa⟩
    exact ⟨a, ha, (banFilterB_iff now u rid a).mpr hfa⟩

theorem setProfileBan_memberships (st : Store) (u : UserId) (reason : String) (untl : Option Time) :
    (setProfileBan st u reason untl).memberships = st.memberships := by
  unfold setProfileBan ensureProfile
  split <;> rfl

theorem setProfileBan_modActions (st : Store) (u : UserId) (reason : String) (untl : Option Time) :
    (setProfileBan st u reason untl).modActions = st.modActions := by
  unfold setProfileBan ensureProfile
  split <;> rfl

theorem profileLookup_setProfileBan (st : Store) (u : UserId) (reason : String)
    (untl : Option Time) :
    ∃ q, profileLookup (setProfileBan st u reason untl) u = some q ∧
      q.isBanned = true ∧ q.banReason = reason ∧ q.bannedUntil = untl := by
  unfold setProfileBan ensureProfile profileLookup
  by_cases hex : st.profiles.any (fun p => decide (p.user = u)) = true
  · rw [if_pos hex]
    obtain ⟨p0, hp0⟩ : ∃ p0, st.profiles.find? (fun p => decide (p.user = u)) = some p0 := by
      rw [List.any_eq_true] at hex
      obtain ⟨x, hx, hxx⟩ := hex
      have hs : (st.profiles.find? (fun p => decide (p.user = u))).isSome = true :=
        List.find?_isSome.mpr ⟨x, hx, hxx⟩
      cases hf : st.profiles.find? (fun p => decide (p.user = u)) with
      | none => rw [hf] at hs; cases hs
      | some p0 => exact ⟨p0, rfl⟩
    rw [find?_updFirst _ _ _ (fun a ha => by simpa using ha), hp0]
    exact ⟨_, rfl, rfl, rfl, rfl⟩
  · rw [if_neg hex]
    have hfn : st.profiles.find? (fun p => decide (p.user = u)) = none := by
      rw [List.find?_eq_none]
      intro x hx
      rw [Bool.not_eq_true]
      rcases hxe : decide (x.user = u) with _ | _
      · rfl
      · exact absurd (List.any_eq_true.mpr ⟨x, hx, hxe⟩) hex
    rw [find?_updFirst _ _ _ (fun a ha => by simpa using ha)]
    rw [List.find?_append, hfn]
    simp only [Option.none_or, List.find?_cons]
    simp

/-! Claim theorems. -/

/-- Claim C1, counterexample: the claim requires not globally banned for
the join, and membership auto-creation for public rooms.  In the code a
member of room r whose profile is currently globally banned still joins,
and a non-member is denied on a public room with no moderation state at
all, with the connection closed instead of a membership being created. -/
theorem c1_counterexample :
    (connectJoins c1st 0 true 1 "r" = true ∧ globallyBanned c1st 0 1 = true) ∧
    (connectJoins c1stB 0 true 3 "pub" = false ∧
      (c1stB.rooms.find? (fun r => decide (r.slug = "pub"))).map Room.roomType =
        some RoomType.pub ∧
      c1stB.memberships = [] ∧ c1stB.modActions = []) :=
  ⟨⟨rfl, rfl⟩, rfl, rfl, rfl, rfl⟩

/-- Claim C1, amended: the websocket connect joins exactly when the user
is authenticated, the room slug resolves, the user holds a Membership row
(never auto-created here, even for public rooms), and the user has no
active room ban with absent or future expiry; the global profile ban is
not consulted on this path.  On denial the connection is closed. -/
theorem c1_amended_join_characterization (st : Store) (now : Time) (authed : Bool)
    (u : UserId) (slug : String) :
    connectJoins st now authed u slug = true ↔
      (authed = true ∧ ∃ room, st.rooms.find? (fun r => decide (r.slug = slug)) = some room ∧
        (∃ m ∈ st.memberships, m.user = u ∧ m.room = room.id) ∧
        ¬ ∃ a ∈ st.modActions, a.targetUser = u ∧ a.room = some room.id ∧
            a.actionType = ActionType.ban ∧ a.isActive = true ∧
            (a.expiresAt = none ∨ ∃ e, a.expiresAt = some e ∧ now < e)) := by
  constructor
  · intro h
    unfold connectJoins at h
    rw [Bool.and_eq_true] at h
    obtain ⟨hauth, hacc⟩ := h
    refine ⟨hauth, ?_⟩
    unfold check_room_access at hacc
    cases hfind : st.rooms.find? (fun r => decide (r.slug = slug)) with
    | none => rw [hfind] at hacc; cases hacc
    | some room =>
      rw [hfind] at hacc
      simp only [] at hacc
      by_cases hm : st.memberships.any (fun m => decide (m.user = u) && decide (m.room = room.id)) = true
      · rw [hm] at hacc
        have hacc2 : consumerRoomBanned st now u room.id = false := by simpa using hacc
        refine ⟨room, rfl, (memberAny_iff st u room.id).mp hm, ?_⟩
        intro hex
        have hcb := (consumerRoomBanned_iff st now u room.id).mpr hex
        rw [hcb] at hacc2
        cases hacc2
      · rw [Bool.not_eq_true] at hm
        rw [hm] at hacc
        simp at hacc
  · rintro ⟨hauth, room, hfind, hmem, hnoban⟩
    unfold connectJoins check_room_access
    rw [hfind, hauth]
    simp only []
    rw [(memberAny_iff st u room.id).mpr hmem]
    have hb : consumerRoomBanned st now u room.id = false := by
      rw [Bool.eq_false_iff]
      intro hcb
      exact hnoban ((consumerRoomBanned_iff st now u room.id).mp hcb)
    rw [hb]
    rfl

/-- Claim C2, counterexample: the claim says the very next resolver check
after expiry deactivates the stored record.  With a mute whose expiry 5 is
strictly past at time 10, the websocket-side check reports not muted, the
whole message path runs against that store, and the resulting store still
holds the stale mute row untouched: the record survived its first read. -/
theorem c2_counterexample :
    c2mute.expiresAt = some 5 ∧
    check_mute_status c2st 10 1 10 = false ∧
    receive sessAlice c2st 10 (some (Json.obj c2fs)) =
      RecvOutcome.ok [Act.broadcastChat "hi" "alice" 1 Json.null (Json.num 1) 10] c2stAfter ∧
    c2stAfter.roomMutes = [c2mute] :=
  ⟨rfl, rfl, rfl, rfl⟩

/-- Claim C2, amended: a record with expiry strictly in the past is
treated as inactive by every check, and the HTTP-side resolvers
is_user_muted and is_user_banned_from_room deactivate it as a side effect
of the check (the mute row is deleted, the ban row has is_active set to
false); the websocket-side checks check_mute_status and the room ban
filter of check_room_access also report inactive but are pure reads, so
they leave the stale record stored. -/
theorem c2_amended_lazy_expiry (st : Store) (now : Time) (u : UserId) (r : RoomId) :
    (∀ m, st.roomMutes.find? (muteKeyB u r) = some m →
      ∀ e, m.expiresAt = some e → e < now →
        is_user_muted st now u r =
          (false, { st with roomMutes := st.roomMutes.eraseP (muteKeyB u r) })) ∧
    (∀ a, st.modActions.find? (banKeyB u r) = some a →
      ∀ e, a.expiresAt = some e → e < now →
        is_user_banned_from_room st now u r =
          (false, { st with modActions :=
                      updFirst (banKeyB u r) (fun x => { x with isActive := false }) st.modActions })) ∧
    ((∀ m ∈ st.roomMutes, m.user = u → m.room = r → ∃ e, m.expiresAt = some e ∧ e ≤ now) →
      check_mute_status st now u r = false) ∧
    ((∀ a ∈ st.modActions, a.targetUser = u → a.room = some r →
        a.actionType = ActionType.ban → a.isActive = true →
        ∃ e, a.expiresAt = some e ∧ e ≤ now) →
      consumerRoomBanned st now u r = false) := by
  refine ⟨?_, ?_, ?_, ?_⟩
  · intro m hm e he hlt
    unfold is_user_muted
    rw [hm]
    simp [he, hlt]
  · intro a ha e he hlt
    unfold is_user_banned_from_room
    rw [ha]
    simp [he, hlt]
  · intro h
    rw [Bool.eq_false_iff]
    intro hcm
    unfold check_mute_status at hcm
    rw [List.any_eq_true] at hcm
    obtain ⟨m, hm, hf⟩ := hcm
    rw [muteFilterB_iff] at hf
    obtain ⟨hu, hr, hexp⟩ := hf
    obtain ⟨e, hee, hle⟩ := h m hm hu hr
    rcases hexp with hnone | ⟨e2, he2, hlt2⟩
    · rw [hnone] at hee; cases hee
    · rw [he2] at hee
      have h3 : e2 = e := Option.some.inj hee
      subst h3
      exact absurd hlt2 (Nat.not_lt.mpr hle)
  · intro h
    rw [Bool.eq_false_iff]
    intro hcb
    rw [consumerRoomBanned_iff] at hcb
    obtain ⟨a, ha, hu, hr, hk, hact, hexp⟩ := hcb
    obtain ⟨e, hee, hle⟩ := h a ha hu hr hk hact
    rcases hexp with hnone | ⟨e2, he2, hlt2⟩
    · rw [hnone] at hee; cases hee
    · rw [he2] at hee
      have h3 : e2 = e := Option.some.inj hee
      subst h3
      exact absurd hlt2 (Nat.not_lt.mpr hle)

/-- Witness for the amended C2 on a store holding both an expired mute and
an expired room ban of user 1 in room 10, read at time 10. -/
theorem c2_amended_witness :
    is_user_muted c2wst 10 1 10 =
      (false, { c2wst with roomMutes := c2wst.roomMutes.eraseP (muteKeyB 1 10) }) ∧
    is_user_banned_from_room c2wst 10 1 10 =
      (false, { c2wst with modActions := updFirst (banKeyB 1 10) (fun x => { x with isActive := false }) c2wst.modActions }) ∧
    check_mute_status c2wst 10 1 10 = false ∧
    consumerRoomBanned c2wst 10 1 10 = false :=
  ⟨(c2_amended_lazy_expiry c2wst 10 1 10).1 c2mute rfl 5 rfl (by decide),
   (c2_amended_lazy_expiry c2wst 10 1 10).2.1 c2ban rfl 5 rfl (by decide),
   (c2_amended_lazy_expiry c2wst 10 1 10).2.2.1 (by
      intro m hm hu hr
      simp only [c2wst, c2st, emptyStore, List.mem_singleton] at hm
      subst hm
      exact ⟨5, rfl, by decide⟩),
   (c2_amended_lazy_expiry c2wst 10 1 10).2.2.2 (by
      intro a ha hu hr hk hact
      simp only [c2wst, c2st, emptyStore, List.mem_singleton] at ha
      subst ha
      exact ⟨5, rfl, by decide⟩)⟩

/-- Claim C4, counterexample: warn_user performs no self-target check, so
a staff moderator warning themself commits the Warning row, the audit row
and the notification, and publishes the warning event. -/
theorem c4_counterexample :
    warn_user c4st 0 c4actor c4actor.id (some 10) (some "spam") =
      CmdResult.done c4stAfter [Event.warningReceived 1 "spam" "mod" "General"] ∧
    c4stAfter.warnings =
      [{ user := 1, issuedBy := 1, room := some 10, reason := "spam", acknowledged := false }] :=
  ⟨rfl, rfl⟩

/-- Claim C10, counterexample: the claim says a Message row is created
only if the frame carries no message_id field, and that a frame carrying
one is broadcast without creating a row.  A frame that carries the field
with value null is treated by the code by truthiness, so the row is
created anyway. -/
theorem c10_counterexample :
    pyDictGet c10fs "message_id" = some Json.null ∧
    check_mute_status c10st 7 1 10 = false ∧
    receive sessAlice c10st 7 (some (Json.obj c10fs)) =
      RecvOutcome.ok [Act.broadcastChat "hi" "alice" 1 Json.null (Json.num 1) 7] c10stAfter ∧
    c10stAfter.messages.length = c10st.messages.length + 1 :=
  ⟨rfl, rfl, rfl, rfl⟩

/-- Claim C5, counterexample: the claim says a frame that is valid JSON of
an unexpected shape never terminates the session, but a frame whose JSON
value is an array makes data.get raise an uncaught AttributeError, which
kills the consumer and closes the connection. -/
theorem c5_counterexample :
    receive sessAlice emptyStore 0 (some (Json.arr [Json.num 1, Json.num 2])) =
      RecvOutcome.crash := rfl

/-- Claim C5, amended: a frame that is not valid JSON is answered with the
error event and the session stays open with the store untouched, but a
frame that parses to a JSON value that is not an object raises an uncaught
AttributeError that terminates the session. -/
theorem c5_amended_malformed_frames (sess : Session) (st : Store) (now : Time) :
    receive sess st now none = RecvOutcome.ok [Act.sendError "Invalid message format"] st ∧
    (∀ j : Json, j.isObj = false → receive sess st now (some j) = RecvOutcome.crash) := by
  refine ⟨rfl, ?_⟩
  intro j hj
  cases j with
  | obj fs => simp [Json.isObj] at hj
  | null => rfl
  | bool b => rfl
  | num n => rfl
  | str s => rfl
  | arr xs => rfl

/-- Witness for the amended C5 at concrete inputs. -/
theorem c5_amended_witness :
    receive sessAlice emptyStore 0 none =
      RecvOutcome.ok [Act.sendError "Invalid message format"] emptyStore ∧
    receive sessAlice emptyStore 0 (some (Json.num 3)) = RecvOutcome.crash :=
  ⟨(c5_amended_malformed_frames sessAlice emptyStore 0).1,
   (c5_amended_malformed_frames sessAlice emptyStore 0).2 (Json.num 3) rfl⟩

theorem regUnregister_of_none {reg : Registry} {slug : String} (u : UserId)
    (hr : regRoom reg slug = none) : regUnregister reg slug u = reg := by
  unfold regUnregister
  rw [hr]

theorem regUnregister_of_absent {reg : Registry} {slug : String} {u : UserId}
    {inner : List (UserId × String)} (hr : regRoom reg slug = some inner)
    (ha : inner.any (fun q => decide (q.1 = u)) = false) : regUnregister reg slug u = reg := by
  unfold regUnregister
  rw [hr]
  simp [ha]

theorem regUnregister_of_present {reg : Registry} {slug : String} {u : UserId}
    {inner : List (UserId × String)} (hr : regRoom reg slug = some inner)
    (ha : inner.any (fun q => decide (q.1 = u)) = true) :
    regUnregister reg slug u =
      updFirst (fun p => decide (p.1 = slug))
        (fun p => (p.1, p.2.filter (fun q => !decide (q.1 = u)))) reg := by
  unfold regUnregister
  rw [hr]
  simp [ha]

/-- Claim C6: unregistering the same (room, user) entry of the session
registry twice equals unregistering it once, and unregistering an entry
that is not present leaves the registry unchanged; the operation is a
total function, so no error is raised. -/
theorem c6_unregister_idempotent (reg : Registry) (slug : String) (u : UserId) :
    regUnregister (regUnregister reg slug u) slug u = regUnregister reg slug u ∧
    (regLookup reg slug u = none → regUnregister reg slug u = reg) := by
  cases hr : regRoom reg slug with
  | none =>
    have h1 := regUnregister_of_none u hr
    exact ⟨by rw [h1, h1], fun _ => h1⟩
  | some inner =>
    by_cases ha : inner.any (fun q => decide (q.1 = u)) = true
    · have h1 := regUnregister_of_present hr ha
      obtain ⟨pr, hpr, hpr2⟩ : ∃ pr, reg.find? (fun p => decide (p.1 = slug)) = some pr ∧ pr.2 = inner := by
        unfold regRoom at hr
        cases hfind : reg.find? (fun p => decide (p.1 = slug)) with
        | none => rw [hfind] at hr; cases hr
        | some pr => rw [hfind] at hr; exact ⟨pr, rfl, by simpa using hr⟩
      have hroom2 : regRoom (regUnregister reg slug u) slug =
          some (inner.filter (fun q => !decide (q.1 = u))) := by
        rw [h1]
        unfold regRoom
        rw [find?_updFirst _ _ _ (fun a hx => by simpa using hx), hpr]
        simp [hpr2]
      constructor
      · rw [regUnregister_of_absent hroom2 (any_filter_not inner _)]
      · intro hnone
        exfalso
        rw [List.any_eq_true] at ha
        obtain ⟨q, hq, hqu⟩ := ha
        unfold regLookup at hnone
        rw [hr] at hnone
        simp only [Option.some_bind] at hnone
        have hfn : inner.find? (fun q => decide (q.1 = u)) = none := by
          cases hf : inner.find? (fun q => decide (q.1 = u)) with
          | none => rfl
          | some x => rw [hf] at hnone; cases hnone
        rw [List.find?_eq_none] at hfn
        exact hfn q hq hqu
    · rw [Bool.not_eq_true] at ha
      have h1 := regUnregister_of_absent hr ha
      exact ⟨by rw [h1, h1], fun _ => h1⟩

/-- Witness for C6 at a concrete registry: removing user 1 twice equals
removing once, and removing the absent user 3 is a no-op. -/
theorem c6_witness :
    regUnregister (regUnregister c6reg "r" 1) "r" 1 = regUnregister c6reg "r" 1 ∧
    regUnregister c6reg "r" 3 = c6reg :=
  ⟨(c6_unregister_idempotent c6reg "r" 1).1,
   (c6_unregister_idempotent c6reg "r" 3).2 rfl⟩

/-- Claim C3: while joined, an inbound message frame is evaluated against
the mute state read from the current store at receipt time; when the
sender is muted the session answers with the error event, no Message row
is created (the store is returned unchanged) and nothing is broadcast. -/
theorem c3_muted_sender_rejected (sess : Session) (st : Store) (now : Time)
    (fs : List (String × Json)) (s : String)
    (htype : (pyDictGet fs "type").getD (Json.str "message") = Json.str "message")
    (hmsg : (pyDictGet fs "message").getD (Json.str "") = Json.str s)
    (hmuted : check_mute_status st now sess.userId sess.roomId = true) :
    receive sess st now (some (Json.obj fs)) =
      RecvOutcome.ok [Act.sendError "You are muted in this room"] st := by
  simp [receive, handle_message, htype, hmsg, pyStrip, hmuted]

/-- Witness for C3: user 1 holds a permanent mute in room 10, sends a
message frame, and gets the error event with the store unchanged. -/
theorem c3_witness :
    receive sessAlice c3st 0 (some (Json.obj c3fs)) =
      RecvOutcome.ok [Act.sendError "You are muted in this room"] c3st :=
  c3_muted_sender_rejected sessAlice c3st 0 c3fs "hello" rfl rfl rfl

/-- Claim C8: a force_disconnect event published by ban_user always
carries the id of the banned user, the consumer handler of a session of a
different user returns without sending anything and without closing, and
the handler of a session of the targeted user emits exactly the
force_disconnect frame followed by the close of the connection, in that
order. -/
theorem c8_force_disconnect_targeted (sessUser tgt : UserId) (action reason : Option String)
    (h0 : tgt ≠ 0) :
    (sessUser ≠ tgt → force_disconnect_handler sessUser (some tgt) action reason = []) ∧
    (sessUser = tgt →
      force_disconnect_handler sessUser (some tgt) action reason =
        [ClientAct.forceDisconnectFrame (action.getD "removed")
           (reason.getD "You have been removed from this room."),
         ClientAct.closeConn]) ∧
    (∀ (st : Store) (now : Time) (actor : UserC) (tid : UserId) (roomId : Option RoomId)
        (post : Option BanPost) (st2 : Store) (evs : List Event),
      ban_user st now actor tid roomId post = CmdResult.done st2 evs →
      ∀ u a r, Event.forceDisconnect u a r ∈ evs → u = tid) := by
  refine ⟨?_, ?_, ?_⟩
  · intro hne
    simp [force_disconnect_handler, h0, Ne.symm hne]
  · intro he
    subst he
    simp [force_disconnect_handler]
  · intro st now actor tid roomId post st2 evs h u a r hmem
    unfold ban_user at h
    cases hfu : st.users.find? (fun x => decide (x.id = tid)) with
    | none => rw [hfu] at h; exact absurd h (by simp)
    | some target =>
      have htid : target.id = tid := by
        have := List.find?_some hfu
        simpa using this
      rw [hfu] at h
      simp only [] at h
      split at h
      · exact absurd h (by simp)
      · split at h
        · exact absurd h (by simp)
        · split at h
          · exact absurd h (by simp)
          · split at h
            · exact absurd h (by simp)
            · split at h
              · exact absurd h (by simp)
              · split at h
                · exact absurd h (by simp)
                · injection h with hst hevs
                  rw [← hevs] at hmem
                  split at hmem
                  · simp at hmem
                    rw [hmem.1]
                    exact htid
                  · simp at hmem

/-- Witness for C8: with target user 2, the session of user 1 ignores the
event, the session of user 2 sends the frame and then closes, and the
concrete room ban of user 1 publishes a force_disconnect for user 1. -/
theorem c8_witness :
    force_disconnect_handler 1 (some 2) (some "ban") (some "reason") = [] ∧
    force_disconnect_handler 2 (some 2) (some "ban") (some "reason") =
      [ClientAct.forceDisconnectFrame "ban" "reason", ClientAct.closeConn] :=
  ⟨(c8_force_disconnect_targeted 1 2 (some "ban") (some "reason") (by decide)).1 (by decide),
   (c8_force_disconnect_targeted 2 2 (some "ban") (some "reason") (by decide)).2.1 rfl⟩

/-- Claim C4, amended: for the ban, mute and kick commands a target equal
to the actor or to the room owner is rejected before any state mutation:
the result is never the committed done state, so no record is created or
deleted and no event is published.  The warn command performs no such
check (see the counterexample). -/
theorem c4_amended_self_owner_rejected (st : Store) (now : Time) (actor : UserC) (tid : UserId) :
    (∀ (roomId : Option RoomId) (post : Option BanPost), tid = actor.id →
      (ban_user st now actor tid roomId post).mutated = false) ∧
    (∀ (rid : RoomId) (room : Room) (post : Option BanPost),
      st.rooms.find? (fun r => decide (r.id = rid)) = some room → tid = room.createdBy →
      (ban_user st now actor tid (some rid) post).mutated = false) ∧
    (∀ (rid : RoomId) (post : Option MutePost), tid = actor.id →
      (mute_user st now actor tid rid post).mutated = false) ∧
    (∀ (rid : RoomId) (room : Room) (post : Option MutePost),
      st.rooms.find? (fun r => decide (r.id = rid)) = some room → tid = room.createdBy →
      (mute_user st now actor tid rid post).mutated = false) ∧
    (∀ (rid : RoomId) (post : Option String), tid = actor.id →
      (kick_user st now actor tid rid post).mutated = false) ∧
    (∀ (rid : RoomId) (room : Room) (post : Option String),
      st.rooms.find? (fun r => decide (r.id = rid)) = some room → tid = room.createdBy →
      (kick_user st now actor tid rid post).mutated = false) := by
  refine ⟨?_, ?_, ?_, ?_, ?_, ?_⟩
  · intro roomId post htid
    unfold ban_user
    cases hfu : st.users.find? (fun x => decide (x.id = tid)) with
    | none => rfl
    | some target =>
      have ht0 : target.id = tid := by
        have := List.find?_some hfu
        simpa using this
      have ht : target.id = actor.id := by rw [ht0, htid]
      simp only []
      split
      · rfl
      · split
        · rfl
        · simp [ht, CmdResult.mutated]
  · intro rid room post hrm howner
    unfold ban_user
    cases hfu : st.users.find? (fun x => decide (x.id = tid)) with
    | none => rfl
    | some target =>
      have ht0 : target.id = tid := by
        have := List.find?_some hfu
        simpa using this
      have ht : target.id = room.createdBy := by rw [ht0, howner]
      simp only [hrm]
      split
      · rfl
      · split
        · rfl
        · simp [ht, CmdResult.mutated]
  · intro rid post htid
    unfold mute_user
    cases hfu : st.users.find? (fun x => decide (x.id = tid)) with
    | none => rfl
    | some target =>
      have ht0 : target.id = tid := by
        have := List.find?_some hfu
        simpa using this
      have ht : target.id = actor.id := by rw [ht0, htid]
      simp only []
      split
      · rfl
      · split
        · rfl
        · simp [ht, CmdResult.mutated]
  · intro rid room post hrm howner
    unfold mute_user
    cases hfu : st.users.find? (fun x => decide (x.id = tid)) with
    | none => rfl
    | some target =>
      have ht0 : target.id = tid := by
        have := List.find?_some hfu
        simpa using this
      have ht : target.id = room.createdBy := by rw [ht0, howner]
      simp only [hrm]
      split
      · rfl
      · split
        · rfl
        · simp [ht, CmdResult.mutated]
  · intro rid post htid
    unfold kick_user
    cases hfu : st.users.find? (fun x => decide (x.id = tid)) with
    | none => rfl
    | some target =>
      have ht0 : target.id = tid := by
        have := List.find?_some hfu
        simpa using this
      have ht : target.id = actor.id := by rw [ht0, htid]
      simp only []
      split
      · rfl
      · split
        · rfl
        · simp [ht, CmdResult.mutated]
  · intro rid room post hrm howner
    unfold kick_user
    cases hfu : st.users.find? (fun x => decide (x.id = tid)) with
    | none => rfl
    | some target =>
      have ht0 : target.id = tid := by
        have := List.find?_some hfu
        simpa using this
      have ht : target.id = room.createdBy := by rw [ht0, howner]
      simp only [hrm]
      split
      · rfl
      · split
        · rfl
        · simp [ht, CmdResult.mutated]

/-- Witness for the amended C4: on a concrete store the staff actor
banning, muting or kicking themself and the room owner commits nothing. -/
theorem c4_amended_witness :
    (ban_user c4wst 0 c4actor 1 (some 10) (some { reason := "x", duration := none, isGlobal := false })).mutated = false ∧
    (ban_user c4wst 0 c4actor 2 (some 10) (some { reason := "x", duration := none, isGlobal := false })).mutated = false ∧
    (mute_user c4wst 0 c4actor 1 10 (some { reason := "x", duration := none })).mutated = false ∧
    (mute_user c4wst 0 c4actor 2 10 (some { reason := "x", duration := none })).mutated = false ∧
    (kick_user c4wst 0 c4actor 1 10 (some "x")).mutated = false ∧
    (kick_user c4wst 0 c4actor 2 10 (some "x")).mutated = false :=
  ⟨(c4_amended_self_owner_rejected c4wst 0 c4actor 1).1 (some 10) _ rfl,
   (c4_amended_self_owner_rejected c4wst 0 c4actor 2).2.1 10 c4room _ rfl rfl,
   (c4_amended_self_owner_rejected c4wst 0 c4actor 1).2.2.1 10 _ rfl,
   (c4_amended_self_owner_rejected c4wst 0 c4actor 2).2.2.2.1 10 c4room _ rfl rfl,
   (c4_amended_self_owner_rejected c4wst 0 c4actor 1).2.2.2.2.1 10 _ rfl,
   (c4_amended_self_owner_rejected c4wst 0 c4actor 2).2.2.2.2.2 10 c4room _ rfl rfl⟩

/-- Claim C10, amended: for a well formed message frame handled by a
joined, non-muted session, a Message row is created iff the stripped text
is non-empty and the message_id value is falsy (absent, null, 0 or empty,
following Python truthiness); a frame with empty stripped text and falsy
image_url is silently dropped with no error, no broadcast and no row; a
frame with a truthy message_id, or with empty text but truthy image_url,
is broadcast without creating a row. -/
theorem c10_amended_message_persistence (sess : Session) (st : Store) (now : Time)
    (fs : List (String × Json)) (s : String)
    (htype : (pyDictGet fs "type").getD (Json.str "message") = Json.str "message")
    (hmsg : (pyDictGet fs "message").getD (Json.str "") = Json.str s)
    (hnm : check_mute_status st now sess.userId sess.roomId = false) :
    (stripStr s = "" → ((pyDictGet fs "image_url").getD Json.null).truthy = false →
      receive sess st now (some (Json.obj fs)) = RecvOutcome.ok [] st) ∧
    (stripStr s ≠ "" → ((pyDictGet fs "message_id").getD Json.null).truthy = false →
      receive sess st now (some (Json.obj fs)) =
        RecvOutcome.ok
          [Act.broadcastChat (stripStr s) sess.username sess.userId
             ((pyDictGet fs "image_url").getD Json.null) (Json.num (Int.ofNat st.nextMessageId)) now]
          { st with
            messages := st.messages ++
              [{ id := st.nextMessageId, room := sess.roomId, sender := sess.userId,
                 content := stripStr s, image := none, parent := none, isDeleted := false,
                 deletedBy := none, deletedAt := none, createdAt := now }],
            nextMessageId := st.nextMessageId + 1 }) ∧
    (((pyDictGet fs "message_id").getD Json.null).truthy = true →
      (stripStr s ≠ "" ∨ ((pyDictGet fs "image_url").getD Json.null).truthy = true) →
      receive sess st now (some (Json.obj fs)) =
        RecvOutcome.ok
          [Act.broadcastChat (stripStr s) sess.username sess.userId
             ((pyDictGet fs "image_url").getD Json.null)
             ((pyDictGet fs "message_id").getD Json.null) now] st) ∧
    (((pyDictGet fs "message_id").getD Json.null).truthy = false → stripStr s = "" →
      ((pyDictGet fs "image_url").getD Json.null).truthy = true →
      receive sess st now (some (Json.obj fs)) =
        RecvOutcome.ok
          [Act.broadcastChat "" sess.username sess.userId
             ((pyDictGet fs "image_url").getD Json.null)
             ((pyDictGet fs "message_id").getD Json.null) now] st) := by
  have hrecv : receive sess st now (some (Json.obj fs)) = handle_message sess st now fs := by
    simp [receive, htype]
  refine ⟨?_, ?_, ?_, ?_⟩
  · intro h1 h2
    rw [hrecv]
    simp [handle_message, hmsg, pyStrip, hnm, h1, h2]
  · intro h1 h2
    rw [hrecv]
    simp [handle_message, hmsg, pyStrip, hnm, h1, h2, save_message]
  · intro h1 h2
    rw [hrecv]
    rcases h2 with h2 | h2
    · simp [handle_message, hmsg, pyStrip, hnm, h1, h2]
    · simp [handle_message, hmsg, pyStrip, hnm, h1, h2]
  · intro h1 h2 h3
    rw [hrecv]
    simp [handle_message, hmsg, pyStrip, hnm, h1, h2, h3]

/-- Witness for the amended C10: a text frame with no message_id creates
the row and is broadcast with the fresh id; a frame carrying message_id 42
is broadcast as is with no new row. -/
theorem c10_amended_witness :
    receive sessAlice c10st 7 (some (Json.obj c10wfs1)) =
      RecvOutcome.ok [Act.broadcastChat "hello" "alice" 1 Json.null (Json.num 1) 7] c10wstAfter ∧
    receive sessAlice c10st 7 (some (Json.obj c10wfs2)) =
      RecvOutcome.ok [Act.broadcastChat "x" "alice" 1 Json.null (Json.num 42) 7] c10st := by
  constructor
  · have h := (c10_amended_message_persistence sessAlice c10st 7 c10wfs1 " hello "
      (by simp [c10wfs1, pyDictGet]) (by simp [c10wfs1, pyDictGet]) (by rfl)).2.1
      (by decide) (by simp [c10wfs1, pyDictGet, Json.truthy])
    exact h.trans (by rfl)
  · have h := (c10_amended_message_persistence sessAlice c10st 7 c10wfs2 "x"
      (by simp [c10wfs2, pyDictGet]) (by simp [c10wfs2, pyDictGet]) (by rfl)).2.2.1
      (by simp [c10wfs2, pyDictGet, Json.truthy]) (Or.inl (by decide))
    exact h.trans (by rfl)
/-- Claim C9: an authorized delete-message command keeps the Message row
(the message list keeps its length), leaves every other row untouched, and
replaces the targeted row by a copy whose only changed fields are the soft
delete flag, the deleting moderator and the deletion timestamp; room,
sender, content, image, parent and creation time are carried over
unchanged, and no row is physically removed. -/
theorem c9_delete_message_soft (st : Store) (now : Time) (actor : UserC) (messageId : Nat)
    (msg : Message) (room : Room)
    (hfm : st.messages.find? (fun m => decide (m.id = messageId)) = some msg)
    (hfr : st.rooms.find? (fun r => decide (r.id = msg.room)) = some room)
    (hperm : can_moderate_room st actor room = true) :
    ∃ st2, delete_message st now actor messageId true =
        CmdResult.done st2 [Event.messageDeleted msg.id] ∧
      st2.messages.length = st.messages.length ∧
      (∀ m ∈ st.messages, decide (m.id = messageId) = false → m ∈ st2.messages) ∧
      ({ msg with isDeleted := true, deletedBy := some actor.id, deletedAt := some now } : Message) ∈
        st2.messages := by
  unfold delete_message
  rw [hfm]
  simp only []
  rw [hfr]
  simp only [hperm, Bool.not_true, Bool.false_eq_true, if_false]
  refine ⟨_, rfl, ?_, ?_, ?_⟩
  · exact length_updFirst _ _ _
  · intro m hm hne
    exact mem_updFirst_of_neg hm hne
  · exact mem_updFirst_of_find? hfm

/-- Witness for C9 on a concrete store: the committed store keeps exactly
one message row, now flagged deleted by moderator 9 at time 4, with all
other fields intact. -/
theorem c9_witness :
    delete_message c9st 4 c7actor 5 true = CmdResult.done c9stDel [Event.messageDeleted 5] ∧
    c9stDel.messages.length = c9st.messages.length ∧
    ({ c9msg with isDeleted := true, deletedBy := some c7actor.id, deletedAt := some 4 } : Message) ∈
      c9stDel.messages := by
  obtain ⟨st2, heq, hlen, hpres, hmem⟩ := c9_delete_message_soft c9st 4 c7actor 5 c9msg c7room rfl rfl rfl
  have hcomp : delete_message c9st 4 c7actor 5 true = CmdResult.done c9stDel [Event.messageDeleted 5] := rfl
  have hst : st2 = c9stDel := by
    have h2 := heq.symm.trans hcomp
    injection h2 with h3 h4
    try exact h3
  subst hst
  exact ⟨hcomp, hlen, hmem⟩

/-- Claim C7: an executed room-scoped ban deletes the Membership rows of
the target for that room (and keeps every other membership and the
profiles untouched) while appending one active ban ModerationAction bound
to the room, and an executed global ban leaves memberships alone, sets the
banned flag, reason and banned-until on the target profile, and appends
one active ban ModerationAction with a null room. -/
theorem c7_ban_effects (st : Store) (now : Time) (actor : UserC) (tid : UserId) :
    (∀ (rid : RoomId) (room : Room) (target : UserC) (p : BanPost),
      st.users.find? (fun x => decide (x.id = tid)) = some target →
      st.rooms.find? (fun r => decide (r.id = rid)) = some room →
      can_moderate_room st actor room = true →
      decide (target.id = actor.id) = false →
      decide (target.id = room.createdBy) = false →
      (target.isStaff && !actor.isSuperuser) = false →
      (p.isGlobal && (actor.isStaff || actor.isSuperuser)) = false →
      ∃ st2, ban_user st now actor tid (some rid) (some p) =
          CmdResult.done st2
            [Event.forceDisconnect target.id "ban"
               ("You have been banned from " ++ room.name ++ ". Reason: " ++ p.reason),
             Event.memberRemoved target.id target.username] ∧
        (∀ m ∈ st2.memberships, ¬(m.user = target.id ∧ m.room = room.id)) ∧
        (∀ m ∈ st.memberships, ¬(m.user = target.id ∧ m.room = room.id) → m ∈ st2.memberships) ∧
        st2.modActions = st.modActions ++
          [{ moderator := actor.id, targetUser := target.id, actionType := ActionType.ban,
             reason := p.reason, room := some room.id, duration := postDurField p.duration,
             expiresAt := postExpiry now p.duration, isActive := true, createdAt := now }] ∧
        st2.profiles = st.profiles) ∧
    (∀ (target : UserC) (p : BanPost),
      st.users.find? (fun x => decide (x.id = tid)) = some target →
      (actor.isStaff || actor.isSuperuser) = true →
      decide (target.id = actor.id) = false →
      (target.isStaff && !actor.isSuperuser) = false →
      p.isGlobal = true →
      ∃ st2, ban_user st now actor tid none (some p) = CmdResult.done st2 [] ∧
        st2.memberships = st.memberships ∧
        (∃ q, profileLookup st2 target.id = some q ∧ q.isBanned = true ∧
          q.banReason = p.reason ∧ q.bannedUntil = postExpiry now p.duration) ∧
        st2.modActions = st.modActions ++
          [{ moderator := actor.id, targetUser := target.id, actionType := ActionType.ban,
             reason := p.reason, room := none, duration := postDurField p.duration,
             expiresAt := postExpiry now p.duration, isActive := true, createdAt := now }]) := by
  constructor
  · intro rid room target p hfu hfr hperm hself howner hstaff hglob
    unfold ban_user
    rw [hfu]
    simp only [hfr]
    simp only [hperm, hself, howner, hstaff, hglob, Bool.not_true, Bool.false_eq_true, if_false]
    refine ⟨_, rfl, ?_, ?_, rfl, rfl⟩
    · intro m hm
      simp only [addNotif, addAction] at hm
      rw [List.mem_filter] at hm
      rintro ⟨h1, h2⟩
      simp [h1, h2] at hm
    · intro m hm hnot
      simp only [addNotif, addAction]
      rw [List.mem_filter]
      refine ⟨hm, ?_⟩
      have hfalse : (decide (m.user = target.id) && decide (m.room = room.id)) = false := by
        cases hd1 : decide (m.user = target.id) with
        | false => rfl
        | true =>
          cases hd2 : decide (m.room = room.id) with
          | false => rfl
          | true =>
            exact absurd ⟨of_decide_eq_true hd1, of_decide_eq_true hd2⟩ hnot
      rw [hfalse]
      rfl
  · intro target p hfu hstaffish hself hstaff hg
    unfold ban_user
    rw [hfu]
    simp only [hstaffish, hself, hstaff, hg, Bool.not_true, Bool.false_eq_true, if_false,
      Bool.true_and, and_true, Bool.and_self, if_true]
    refine ⟨_, rfl, ?_, ?_, ?_⟩
    · simp only [addNotif, addAction]
      exact setProfileBan_memberships st target.id p.reason (postExpiry now p.duration)
    · exact profileLookup_setProfileBan st target.id p.reason (postExpiry now p.duration)
    · simp only [addNotif, addAction]
      rw [setProfileBan_modActions]

/-- Witness for C7: on a concrete store, the room ban of user 1 empties
the membership table, leaves the profiles alone and publishes the
force_disconnect and member_removed events, while the global ban keeps
the membership and writes the banned profile. -/
theorem c7_witness :
    ban_user c7st 3 c7actor 1 (some 10) (some c7postRoom) =
      CmdResult.done c7stRoomBan c7evsRoom ∧
    c7stRoomBan.memberships = [] ∧
    c7stRoomBan.profiles = c7st.profiles ∧
    ban_user c7st 3 c7actor 1 none (some c7postGlob) = CmdResult.done c7stGlobBan [] ∧
    profileLookup c7stGlobBan 1 = some c7profAfter := by
  obtain ⟨st2, heq, hforall, hpres, hmod, hprof⟩ :=
    (c7_ban_effects c7st 3 c7actor 1).1 10 c7room c7target c7postRoom rfl rfl rfl rfl rfl rfl rfl
  have hcomp : ban_user c7st 3 c7actor 1 (some 10) (some c7postRoom) =
      CmdResult.done c7stRoomBan c7evsRoom := rfl
  have hcomp2 : ban_user c7st 3 c7actor 1 none (some c7postGlob) =
      CmdResult.done c7stGlobBan [] := rfl
  have hst : st2 = c7stRoomBan := by
    have h2 := heq.symm.trans hcomp
    injection h2 with h3 h4
    try exact h3
  subst hst
  exact ⟨hcomp, rfl, hprof, hcomp2, rfl⟩

end ChatSpec
